import Mathlib

/-!
Shallow embedding of the OKX auto-swap bot (`OKXAutoSwapBot` class, together
with its `config.js` loader) and proofs about its behaviour.

Modelling conventions:
* JavaScript numbers used for prices and thresholds are modelled as `Rat`
  (the comparisons in the source are exact order comparisons, so `Rat`
  captures them faithfully for every representable input).
* Optional / possibly-absent config fields are `Option _`; JavaScript
  truthiness of a number (`x && ...`, `x || d`) is modelled explicitly:
  a numeric value is falsy exactly when it is `0`.
* `ethers.BigNumber` amounts (wei, smallest units) are `Nat`;
  `BigNumber.div` on non-negative operands is `Nat` floor division.
* Every external interaction (HTTP responses, RPC reads, transaction
  submission) is an explicit environment value of type `Except String _` /
  `Option _` so that one Lean function computes, for each environment, what
  the JavaScript code would do, including its `catch` branches.
* Mutable instance state (`this.isRunning`, `this.logs`) is an explicit
  `BotState` record threaded through each operation.  `this.log(msg)`
  appends one entry to `logs` (the timestamp prefix and the mirror to
  `console.log` / the log file are I/O formatting, not state).
-/

namespace OkxBot

/-- `config.conditions.buyWhen`: optional absolute threshold plus the
declared-but-never-evaluated percentage trigger. -/
structure BuyWhen where
  priceBelow : Option Rat
  priceIncrease : Option Rat
deriving Repr, DecidableEq

/-- `config.conditions.sellWhen`. -/
structure SellWhen where
  priceAbove : Option Rat
  priceDecrease : Option Rat
deriving Repr, DecidableEq

/-- `config.conditions`. -/
structure Conditions where
  buyWhen : Option BuyWhen
  sellWhen : Option SellWhen
deriving Repr, DecidableEq

/-- Trade actions: the strings `'buy'` and `'sell'` of the source. -/
inductive Action where
  | buy
  | sell
deriving Repr, DecidableEq

/-- The object `{ action, reason }` returned by `checkPriceConditions`. -/
structure Intent where
  action : Action
  reason : String
deriving Repr, DecidableEq

/-- The sell half of `checkPriceConditions` (lines 149-159): fires when
`priceAbove` is truthy and `currentPrice >= priceAbove`; the
`priceDecrease` block has an empty body in the source. -/
def sellSide (conds : Conditions) (currentPrice : Rat) : Option Intent :=
  match conds.sellWhen with
  | some sw =>
    match sw.priceAbove with
    | some a =>
      if a ≠ 0 ∧ a ≤ currentPrice then
        some ⟨Action.sell, "Price above " ++ toString a⟩
      else none
    | none => none
  | none => none

/-- `checkPriceConditions(currentPrice)` (lines 132-162): the buy block runs
first and returns on a match (`priceBelow` truthy and
`currentPrice <= priceBelow`); its `priceIncrease` block has an empty body;
otherwise control falls through to the sell block. -/
def checkPriceConditions (conds : Conditions) (currentPrice : Rat) :
    Option Intent :=
  match conds.buyWhen with
  | some bw =>
    match bw.priceBelow with
    | some b =>
      if b ≠ 0 ∧ currentPrice ≤ b then
        some ⟨Action.buy, "Price below " ++ toString b⟩
      else sellSide conds currentPrice
    | none => sellSide conds currentPrice
  | none => sellSide conds currentPrice

/-- The bot's configuration object (`config.js` / the inline example):
the fields the engine reads at runtime.  Numeric fields that the source
guards with `||` are `Option` so that both "absent" and "present but 0"
(both falsy in JavaScript) can be expressed. -/
structure Config where
  conditions : Conditions
  swapAmount : Rat
  sellPercentage : Option Nat
  slippage : Option Rat
  checkInterval : Option Nat
deriving Repr

/-- JavaScript `x || d` for an optional numeric field: the default applies
when the field is absent or `0` (falsy). -/
def jsOrNat : Option Nat → Nat → Nat
  | some v, d => if v = 0 then d else v
  | none, d => d

/-- The hard-coded tracked token contract address (constructor, line 15). -/
def tokenAddress : String := "0x077574441c4f8763a37a2cfee2ecb444aa60a15e"

/-- `ethers.constants.AddressZero`. -/
def addressZero : String := "0x0000000000000000000000000000000000000000"

/-- The hard-coded chain id (Arbitrum One, constructor line 16). -/
def chainId : Nat := 42161

/-- The mutable instance state of `OKXAutoSwapBot`: the run flag and the
in-memory log buffer.  (The config, wallet and endpoints are set in the
constructor and never reassigned.) -/
structure BotState where
  isRunning : Bool
  logs : List String
deriving Repr, DecidableEq

/-- `this.log(message)` (lines 24-32): appends one entry to `this.logs`.
The timestamp prefix, `console.log` and the file write are I/O. -/
def log (msg : String) (s : BotState) : BotState :=
  { s with logs := s.logs ++ [msg] }

/-- The JSON body `{code, data}` of an OKX DEX API response; `data` is
`none` when the payload's `data` field is null/undefined (falsy). -/
structure ApiResp (α : Type) where
  code : String
  data : Option α
deriving Repr

/-- Token data returned by the price endpoint; `price` models
`parseFloat(tokenData.price)`. -/
structure PriceData where
  price : Rat
deriving Repr

/-- An opaque quote payload returned by the aggregator's quote endpoint. -/
structure QuoteData where
  payload : String
deriving Repr

/-- `getTokenPrice(tokenAddress)` (lines 39-57): `.error` models a thrown
transport error; a non-`'0'` code or missing data throws
`'Failed to fetch token price'`; every throw is caught, logged and turned
into `null`. -/
def getTokenPriceM (resp : Except String (ApiResp PriceData))
    (s : BotState) : Option PriceData × BotState :=
  match resp with
  | .error e => (none, log ("Error fetching token price: " ++ e) s)
  | .ok r =>
    if r.code = "0" then
      match r.data with
      | some d => (some d, s)
      | none =>
        (none, log "Error fetching token price: Failed to fetch token price" s)
    else
      (none, log "Error fetching token price: Failed to fetch token price" s)

/-- `getSwapQuote(fromToken, toToken, amount)` (lines 59-81): same
catch-and-return-null shape as `getTokenPrice`. -/
def getSwapQuoteM (resp : Except String (ApiResp QuoteData))
    (s : BotState) : Option QuoteData × BotState :=
  match resp with
  | .error e => (none, log ("Error getting swap quote: " ++ e) s)
  | .ok r =>
    if r.code = "0" then
      match r.data with
      | some d => (some d, s)
      | none =>
        (none, log "Error getting swap quote: Failed to get swap quote" s)
    else
      (none, log "Error getting swap quote: Failed to get swap quote" s)

/-- The external ledger reads `getWalletBalance` can make: the account's
native balance (wei) and a token's `balanceOf` (raw units) / `decimals`.
`.error` models a thrown RPC failure. -/
structure BalEnv where
  native : Except String Nat
  balanceOf : Except String Nat
  decimals : Except String Nat
deriving Repr

/-- `ethers.utils.formatUnits(balance, decimals)`: the raw integer scaled
down by `10 ^ decimals`, as an exact rational. -/
def formatUnits (balance : Nat) (decimals : Nat) : Rat :=
  (balance : Rat) / ((10 : Rat) ^ decimals)

/-- `getWalletBalance(tokenAddress)` (lines 164-185): native balance for
`'ETH'`/`AddressZero`, otherwise `balanceOf` then `decimals` (in that
order); any throw is caught, logged, and `'0'` is returned. -/
def getWalletBalanceM (addr : String) (env : BalEnv) (s : BotState) :
    Rat × BotState :=
  if addr = "ETH" ∨ addr = addressZero then
    match env.native with
    | .ok b => (formatUnits b 18, s)
    | .error e => (0, log ("Error getting wallet balance: " ++ e) s)
  else
    match env.balanceOf with
    | .error e => (0, log ("Error getting wallet balance: " ++ e) s)
    | .ok b =>
      match env.decimals with
      | .error e => (0, log ("Error getting wallet balance: " ++ e) s)
      | .ok d => (formatUnits b d, s)

/-- One element of the swap endpoint's `data` array: the fields
`executeSwap` reads from `txData` (`toAddr` stands for the source's `to`
field, a reserved word here). -/
structure TxData where
  toAddr : String
  data : String
  value : Option String
  gasLimit : Option String
deriving Repr, DecidableEq

/-- The transaction descriptor handed to `wallet.sendTransaction`
(lines 100-106), with the hard-coded 1 gwei gas price in wei; `toAddr`
stands for the source's `to` field. -/
structure TxReq where
  toAddr : String
  data : String
  value : String
  gasLimit : String
  gasPrice : Nat
deriving Repr, DecidableEq

/-- `{fromToken, toToken, amount}` as passed to the quote and swap calls;
`amount` is the smallest-unit integer whose decimal string is sent. -/
structure SwapReq where
  fromToken : String
  toToken : String
  amount : Nat
deriving Repr, DecidableEq

/-- The `{success, txHash, receipt?, error?}` object `executeSwap`
resolves with; the receipt is represented by its block number. -/
structure SwapOutcome where
  success : Bool
  txHash : Option String
  receipt : Option Nat
  error : Option String
deriving Repr, DecidableEq

/-- The external interactions of one `executeSwap` call: the swap-build
POST response, the signer/broadcaster submission, and the confirmation
wait.  `.error` models a throw at that step. -/
structure ExecEnv where
  api : Except String (ApiResp (List TxData))
  send : Except String String
  waitConf : Except String Nat
deriving Repr

/-- The failure result of `executeSwap`'s catch block (lines 123-129),
together with its log line. -/
def execFail (e : String) (s : BotState) :
    SwapOutcome × BotState × List TxReq :=
  (⟨false, none, none, some e⟩, log ("Error executing swap: " ++ e) s, [])

/-- `executeSwap(swapData)` (lines 83-130).  The returned list records the
transactions submitted to the signer/broadcaster (`wallet.sendTransaction`
calls), empty or a singleton.  A non-`'0'` code or missing `data` throws
`'Failed to execute swap'`; an empty `data` array makes `txData`
undefined, so reading `txData.to` throws a TypeError; each throw lands in
the catch block.  A throw from `sendTransaction` or from the confirmation
wait happens after submission was attempted, so the singleton is kept. -/
def executeSwapM (env : ExecEnv) (s : BotState) :
    SwapOutcome × BotState × List TxReq :=
  match env.api with
  | .error e => execFail e s
  | .ok r =>
    if r.code = "0" then
      match r.data with
      | some ds =>
        match ds.head? with
        | none => execFail "Cannot read properties of undefined" s
        | some td =>
          let tx : TxReq :=
            ⟨td.toAddr, td.data, td.value.getD "0",
             td.gasLimit.getD "500000", 1000000000⟩
          match env.send with
          | .error e =>
            (⟨false, none, none, some e⟩,
             log ("Error executing swap: " ++ e) s, [tx])
          | .ok h =>
            let s1 := log ("Swap executed! TX Hash: " ++ h) s
            match env.waitConf with
            | .error e =>
              (⟨false, none, none, some e⟩,
               log ("Error executing swap: " ++ e) s1, [tx])
            | .ok blk =>
              let s2 := log ("Swap confirmed! Block: " ++ toString blk) s1
              (⟨true, some h, some blk, none⟩, s2, [tx])
      | none => execFail "Failed to execute swap" s
    else execFail "Failed to execute swap" s

/-- `ethers.utils.parseUnits(x, 18)` / `parseEther(x)` on a non-negative
decimal value: scale by `10^18`; a fractional component that does not fit
in 18 decimals (or a negative input) throws. -/
def parseUnits18 (q : Rat) : Except String Nat :=
  if (q * ((10 : Rat) ^ 18)).den = 1 ∧ 0 ≤ (q * ((10 : Rat) ^ 18)).num then
    .ok (q * ((10 : Rat) ^ 18)).num.toNat
  else .error "invalid decimal value"

/-- What one buy/sell branch of `monitorAndSwap` produced: the state after
the branch, the outcome of `executeSwap` when it was invoked, and the
requests/submissions that reached the outside world. -/
structure BranchOut where
  state : BotState
  outcome : Option SwapOutcome
  quoteReqs : List SwapReq
  execReqs : List SwapReq
  submitted : List TxReq
deriving Repr

/-- The shared quote-then-execute skeleton of both branches of
`monitorAndSwap` (lines 219-235 and 240-256): `getSwapQuote` is called
with `req`; only when it returns a quote is `executeSwap` invoked with the
same `{fromToken, toToken, amount}`. -/
def quotedSwap (req : SwapReq) (qresp : Except String (ApiResp QuoteData))
    (eenv : ExecEnv) (s : BotState) : BranchOut :=
  let (q, s1) := getSwapQuoteM qresp s
  match q with
  | none => ⟨s1, none, [req], [], []⟩
  | some _ =>
    let (o, s2, txs) := executeSwapM eenv s1
    ⟨s2, some o, [req], [req], txs⟩

/-- The external interactions available to one iteration of the
monitoring loop. -/
structure IterEnv where
  priceResp : Except String (ApiResp PriceData)
  ethBalEnv : BalEnv
  tokenBalEnv : BalEnv
  quoteResp : Except String (ApiResp QuoteData)
  execEnv : ExecEnv

/-- The buy branch (lines 216-235): `parseEther(config.swapAmount)` sizes
the request (a throw here escapes to the loop's catch); then the shared
quote-then-execute skeleton; on success one more log line. -/
def buyBranch (cfg : Config) (env : IterEnv) (s : BotState) :
    Except (String × BotState) BranchOut :=
  match parseUnits18 cfg.swapAmount with
  | .error e => .error (e, s)
  | .ok amt =>
    let req : SwapReq := ⟨addressZero, tokenAddress, amt⟩
    let bo := quotedSwap req env.quoteResp env.execEnv s
    match bo.outcome with
    | some o =>
      if o.success then
        .ok { bo with state := log "Buy order executed successfully!" bo.state }
      else .ok bo
    | none => .ok bo

/-- The sell branch (lines 236-256): `parseUnits(tokenBalance, 18)` (a
throw escapes to the loop's catch), then
`tokenBalanceWei.mul(sellPercentage || 100).div(100)` sizes the request;
then the shared quote-then-execute skeleton; on success one more log
line. -/
def sellBranch (cfg : Config) (tokenBalance : Rat) (env : IterEnv)
    (s : BotState) : Except (String × BotState) BranchOut :=
  match parseUnits18 tokenBalance with
  | .error e => .error (e, s)
  | .ok tokenBalanceWei =>
    let amt := tokenBalanceWei * jsOrNat cfg.sellPercentage 100 / 100
    let req : SwapReq := ⟨tokenAddress, addressZero, amt⟩
    let bo := quotedSwap req env.quoteResp env.execEnv s
    match bo.outcome with
    | some o =>
      if o.success then
        .ok { bo with state := log "Sell order executed successfully!" bo.state }
      else .ok bo
    | none => .ok bo

/-- The condition-met block of one iteration (lines 209-257): read both
balances, log them, then dispatch on the intent's action. -/
def condStep (cfg : Config) (env : IterEnv) (c : Intent) (s : BotState) :
    Except (String × BotState) BranchOut :=
  let (ethBalance, s4) := getWalletBalanceM "ETH" env.ethBalEnv s
  let (tokenBalance, s5) := getWalletBalanceM tokenAddress env.tokenBalEnv s4
  let s6 := log ("ETH Balance: " ++ toString ethBalance ++
    ", Token Balance: " ++ toString tokenBalance) s5
  match c.action with
  | Action.buy => buyBranch cfg env s6
  | Action.sell => sellBranch cfg tokenBalance env s6

/-- What one iteration of the loop's `try` body produced: the state, the
sleep that follows it, and the branch record when a condition fired. -/
structure IterOut where
  state : BotState
  sleepMs : Nat
  branch : Option BranchOut
deriving Repr

/-- The name string of an action as interpolated into the condition log
line. -/
def actionName : Action → String
  | Action.buy => "buy"
  | Action.sell => "sell"

/-- The `try` body of one iteration of `monitorAndSwap`'s `while` loop
(lines 191-262): price fetch (a `null` just sleeps), price log, condition
check, balance reads and log, branch dispatch, final sleep of
`checkInterval || 30000`.  `.error` carries a thrown error's message and
the state at the throw point. -/
def iterBody (cfg : Config) (env : IterEnv) (s : BotState) :
    Except (String × BotState) IterOut :=
  let interval := jsOrNat cfg.checkInterval 30000
  let (td, s1) := getTokenPriceM env.priceResp s
  match td with
  | none => .ok ⟨s1, interval, none⟩
  | some d =>
    let currentPrice := d.price
    let s2 := log ("Current token price: $" ++ toString currentPrice) s1
    match checkPriceConditions cfg.conditions currentPrice with
    | none => .ok ⟨s2, interval, none⟩
    | some c =>
      let s3 := log ("Condition met: " ++ c.reason ++ " - Action: " ++
        actionName c.action) s2
      (condStep cfg env c s3).map
        (fun bo => ⟨bo.state, interval, some bo⟩)

/-- One full pass of the `while` body including its catch handler
(lines 190-267): a throw from the body is logged and followed by the fixed
5000 ms recovery sleep.  Returns the state and the sleep duration. -/
def loopIter (cfg : Config) (env : IterEnv) (s : BotState) :
    BotState × Nat :=
  match iterBody cfg env s with
  | .ok out => (out.state, out.sleepMs)
  | .error (e, s1) => (log ("Error in monitoring loop: " ++ e) s1, 5000)

/-- `monitorAndSwap`'s `while (this.isRunning)` loop over a finite stream
of iteration environments: the flag is tested before each pass; when it is
clear the loop exits at once, leaving the state as is. -/
def runLoop (cfg : Config) : List IterEnv → BotState → BotState
  | [], s => s
  | env :: envs, s =>
    if s.isRunning then runLoop cfg envs (loopIter cfg env s).1 else s

/-- `start()` (lines 274-283): when already running it only logs and
returns; otherwise it raises the flag, logs, and invokes
`monitorAndSwap()`.  The boolean reports whether `monitorAndSwap` was
invoked (a second loop launched). -/
def start (s : BotState) : BotState × Bool :=
  if s.isRunning then (log "Bot is already running" s, false)
  else
    (log "Starting OKX Auto Swap Bot..." { s with isRunning := true }, true)

/-- `stop()` (lines 285-293): when not running it only logs and returns;
otherwise it clears the flag and logs. -/
def stop (s : BotState) : BotState :=
  if s.isRunning then
    log "Stopping OKX Auto Swap Bot..." { s with isRunning := false }
  else log "Bot is not running" s

/-- The object returned by `getStatus()` (lines 295-303). -/
structure Status where
  isRunning : Bool
  walletAddress : String
  tokenAddress : String
  chainId : Nat
  logsCount : Nat
deriving Repr, DecidableEq

/-- `getStatus()` (lines 295-303): a read-only snapshot; the wallet
address is fixed at construction, passed here as a parameter. -/
def getStatus (walletAddress : String) (s : BotState) : Status :=
  ⟨s.isRunning, walletAddress, tokenAddress, chainId, s.logs.length⟩

/-- Every state-touching operation of the bot, for stating whole-lifecycle
invariants: `start`, `stop`, and one pass of the monitoring loop. -/
inductive Op where
  | opStart
  | opStop
  | opIter (cfg : Config) (env : IterEnv)

/-- Apply one operation to the state. -/
def applyOp : Op → BotState → BotState
  | Op.opStart, s => (start s).1
  | Op.opStop, s => stop s
  | Op.opIter cfg env, s => (loopIter cfg env s).1

/-! Concrete fixtures used to evaluate the model on explicit inputs. -/

/-- The rational 1/10¹⁹: a value whose 18-decimal scaling has a leftover
fractional part, so `parseUnits(·, 18)` throws on it. -/
def tinyRat : Rat := ⟨1, 10 ^ 19, by norm_num, Nat.coprime_one_left _⟩

/-- The rational 1/10. -/
def tenthRat : Rat := ⟨1, 10, by norm_num, Nat.coprime_one_left _⟩

/-- A ledger where the native-balance lookup throws. -/
def benvEthDown : BalEnv := ⟨Except.error "eth down", Except.ok 5, Except.ok 18⟩

/-- A ledger where the token `balanceOf` throws. -/
def benvTokDown : BalEnv := ⟨Except.ok 1, Except.error "tok down", Except.ok 18⟩

/-- A config whose buy rule fires at price 1 and whose `swapAmount`
cannot be scaled to 18 decimals (`parseEther` throws on it). -/
def cfgThrow : Config := ⟨⟨some ⟨some 1, none⟩, none⟩, tinyRat, some 100, none, none⟩

/-- An iteration environment that reports price 1 and fails everywhere
else. -/
def envThrow : IterEnv :=
  ⟨Except.ok ⟨"0", some ⟨1⟩⟩, benvEthDown, benvTokDown, Except.error "q",
   ⟨Except.error "q", Except.error "q", Except.error "q"⟩⟩

/-- The log trail accumulated by the `envThrow` iteration up to the
`parseEther` throw. -/
def errState7 : BotState :=
  log ("ETH Balance: " ++ toString (0 : Rat) ++ ", Token Balance: " ++
      toString (0 : Rat))
    (log "Error getting wallet balance: tok down"
      (log "Error getting wallet balance: eth down"
        (log ("Condition met: " ++ ("Price below " ++ toString (1 : Rat)) ++
            " - Action: " ++ "buy")
          (log ("Current token price: $" ++ toString (1 : Rat))
            ⟨true, []⟩))))

end OkxBot


namespace OkxBot

/-! ## Shape lemmas for the condition evaluator -/

/-- With both rule objects present and both absolute thresholds set,
`checkPriceConditions` is the two-step guarded comparison. -/
theorem checkPriceConditions_eq (pi pd : Option Rat) (b a p : Rat) :
    checkPriceConditions ⟨some ⟨some b, pi⟩, some ⟨some a, pd⟩⟩ p =
      if b ≠ 0 ∧ p ≤ b then some ⟨Action.buy, "Price below " ++ toString b⟩
      else if a ≠ 0 ∧ a ≤ p then
        some ⟨Action.sell, "Price above " ++ toString a⟩
      else none := by
  simp only [checkPriceConditions, sellSide]

/-- The sell block only ever produces a sell intent. -/
theorem sellSide_action (conds : Conditions) (p : Rat) (i : Intent)
    (h : sellSide conds p = some i) : i.action = Action.sell := by
  unfold sellSide at h
  rcases conds with ⟨bw, sw⟩
  rcases sw with _ | ⟨pa, pd⟩
  · simp at h
  · rcases pa with _ | a
    · simp at h
    · by_cases hc : a ≠ 0 ∧ a ≤ p
      · simp [hc] at h
        simp [← h]
      · simp [hc] at h

end OkxBot

namespace OkxBot

/-- The sell block never produces a buy intent. -/
theorem sellSide_map_ne_buy (conds : Conditions) (p : Rat) :
    (sellSide conds p).map Intent.action ≠ some Action.buy := by
  cases hm : sellSide conds p with
  | none => simp
  | some i =>
    have := sellSide_action conds p i hm
    simp [this]

/-- When the sell rule is absent or its threshold is falsy, the sell block
returns nothing. -/
theorem sellSide_eq_none (conds : Conditions) (p : Rat)
    (h : conds.sellWhen = none ∨ ∃ sw, conds.sellWhen = some sw ∧
      (sw.priceAbove = none ∨ sw.priceAbove = some 0)) :
    sellSide conds p = none := by
  unfold sellSide
  rcases h with h | ⟨sw, hsw, h⟩
  · simp [h]
  · rcases h with h | h <;> simp [hsw, h]

/-- C1.  For rules with both thresholds set and truthy (as the config
loader always produces) and `buyBelow < sellAbove`: buy fires iff
`p ≤ buyBelow`, sell fires iff `p ≥ sellAbove`, otherwise no intent; and
for misconfigured thresholds (`sellAbove ≤ buyBelow`) with both
comparisons holding, buy wins because its block runs first and returns. -/
theorem checkPriceConditions_thresholds (pi pd : Option Rat) (b a p : Rat)
    (hb : b ≠ 0) (ha : a ≠ 0) :
    (b < a →
      (((checkPriceConditions ⟨some ⟨some b, pi⟩, some ⟨some a, pd⟩⟩ p).map
          Intent.action = some Action.buy) ↔ p ≤ b)
      ∧ (((checkPriceConditions ⟨some ⟨some b, pi⟩, some ⟨some a, pd⟩⟩ p).map
          Intent.action = some Action.sell) ↔ a ≤ p)
      ∧ ((checkPriceConditions ⟨some ⟨some b, pi⟩, some ⟨some a, pd⟩⟩ p
          = none) ↔ (b < p ∧ p < a)))
    ∧ (a ≤ b → p ≤ b → a ≤ p →
      (checkPriceConditions ⟨some ⟨some b, pi⟩, some ⟨some a, pd⟩⟩ p).map
        Intent.action = some Action.buy) := by
  have he := checkPriceConditions_eq pi pd b a p
  constructor
  · intro hba
    by_cases h1 : p ≤ b
    · have hap : ¬ a ≤ p := by
        intro hc
        exact absurd (lt_of_lt_of_le hba hc) (not_lt.2 h1)
      have hbp : ¬ b < p := not_lt.2 h1
      rw [he]
      simp [hb, ha, h1, hap, hbp]
    · by_cases h2 : a ≤ p
      · have hpa : ¬ p < a := not_lt.2 h2
        rw [he]
        simp [hb, ha, h1, h2, hpa]
      · rw [he]
        simp [hb, ha, h1, h2]
        exact ⟨not_le.1 h1, not_le.1 h2⟩
  · intro hab h1 h2
    rw [he]
    simp [hb, h1]

/-- C1 witness: at rules `{buyBelow:1, sellAbove:10}`, price 0 yields a
buy intent and price 5 yields none. -/
theorem checkPriceConditions_thresholds_witness :
    ((checkPriceConditions ⟨some ⟨some 1, none⟩, some ⟨some 10, none⟩⟩
        (0 : Rat)).map Intent.action = some Action.buy)
    ∧ (checkPriceConditions ⟨some ⟨some 1, none⟩, some ⟨some 10, none⟩⟩
        (5 : Rat) = none) := by
  have h0 := checkPriceConditions_thresholds none none 1 10 0
    (by norm_num) (by norm_num)
  have h5 := checkPriceConditions_thresholds none none 1 10 5
    (by norm_num) (by norm_num)
  exact ⟨((h0.1 (by norm_num)).1).mpr (by norm_num),
         ((h5.1 (by norm_num)).2.2).mpr (by norm_num)⟩

/-- C8.  A rule whose absolute threshold is `0` or absent never fires:
the truthiness guard (`priceBelow && ...`, `priceAbove && ...`) rejects it
before the comparison runs, even for prices that would satisfy the
comparison. -/
theorem zero_threshold_never_fires (conds : Conditions) (p : Rat) :
    ((conds.buyWhen = none ∨ ∃ bw, conds.buyWhen = some bw ∧
        (bw.priceBelow = none ∨ bw.priceBelow = some 0)) →
      (checkPriceConditions conds p).map Intent.action ≠ some Action.buy)
    ∧ ((conds.sellWhen = none ∨ ∃ sw, conds.sellWhen = some sw ∧
        (sw.priceAbove = none ∨ sw.priceAbove = some 0)) →
      (checkPriceConditions conds p).map Intent.action ≠ some Action.sell) := by
  constructor
  · intro h
    obtain ⟨bwo, swo⟩ := conds
    have hred : checkPriceConditions ⟨bwo, swo⟩ p = sellSide ⟨bwo, swo⟩ p := by
      rcases h with h | ⟨bw, hbw, h⟩
      · simp at h
        subst h
        rfl
      · simp at hbw
        subst hbw
        obtain ⟨pb, pin⟩ := bw
        rcases h with h | h
        · simp at h
          subst h
          rfl
        · simp at h
          subst h
          simp [checkPriceConditions]
    rw [hred]
    exact sellSide_map_ne_buy _ p
  · intro h
    have hnone := sellSide_eq_none conds p h
    unfold checkPriceConditions
    rcases conds with ⟨bw, sw⟩
    rcases bw with _ | ⟨pb, pi⟩
    · simp [hnone]
    · rcases pb with _ | b
      · simp [hnone]
      · by_cases hc : b ≠ 0 ∧ p ≤ b
        · simp [hc]
        · simp [hc, hnone]

/-- C8 witness: with `priceBelow = 0` no buy fires even at price 0, and
with `priceAbove` absent no sell fires even at a huge price. -/
theorem zero_threshold_never_fires_witness :
    ((checkPriceConditions ⟨some ⟨some 0, none⟩, some ⟨some 10, none⟩⟩
        (0 : Rat)).map Intent.action ≠ some Action.buy)
    ∧ ((checkPriceConditions ⟨some ⟨some 0, none⟩, some ⟨none, none⟩⟩
        (1000000 : Rat)).map Intent.action ≠ some Action.sell) := by
  refine ⟨(zero_threshold_never_fires
      ⟨some ⟨some 0, none⟩, some ⟨some 10, none⟩⟩ 0).1 ?_,
    (zero_threshold_never_fires
      ⟨some ⟨some 0, none⟩, some ⟨none, none⟩⟩ 1000000).2 ?_⟩
  · exact Or.inr ⟨⟨some 0, none⟩, rfl, Or.inr rfl⟩
  · exact Or.inr ⟨⟨none, none⟩, rfl, Or.inl rfl⟩

end OkxBot

namespace OkxBot

/-! ## Sell sizing -/

/-- `parseUnits(x, 18)` on a whole-number balance scales by `10^18`. -/
theorem parseUnits18_natCast (n : Nat) :
    parseUnits18 (n : Rat) = Except.ok (n * 10 ^ 18) := by
  unfold parseUnits18
  have h : ((n : Rat) * ((10 : Rat) ^ 18)) = ((n * 10 ^ 18 : Nat) : Rat) := by
    push_cast
    ring
  rw [h, Rat.den_natCast, Rat.num_natCast]
  rw [if_pos ⟨rfl, Int.natCast_nonneg _⟩, Int.toNat_natCast]

/-- The quote-then-execute skeleton always issues exactly one quote
request for `req`, and any swap-build request it issues is that same
`req`. -/
theorem quotedSwap_reqs (req : SwapReq)
    (qresp : Except String (ApiResp QuoteData)) (eenv : ExecEnv)
    (s : BotState) :
    (quotedSwap req qresp eenv s).quoteReqs = [req]
    ∧ ((quotedSwap req qresp eenv s).execReqs = []
       ∨ (quotedSwap req qresp eenv s).execReqs = [req]) := by
  unfold quotedSwap
  rcases hq : getSwapQuoteM qresp s with ⟨q, s1⟩
  rcases q with _ | qd
  · simp [hq]
  · rcases he : executeSwapM eenv s1 with ⟨o, s2, txs⟩
    simp [hq, he]

/-- Every request the sell branch issues carries the amount
`tokenBalanceWei * (sellPercentage || 100) / 100`. -/
theorem sellBranch_reqs (cfg : Config) (tokenBalance : Rat) (env : IterEnv)
    (st : BotState) (B : Nat) (out : BranchOut)
    (hB : parseUnits18 tokenBalance = .ok B)
    (hout : sellBranch cfg tokenBalance env st = .ok out) :
    out.quoteReqs =
      [⟨tokenAddress, addressZero, B * jsOrNat cfg.sellPercentage 100 / 100⟩]
    ∧ (out.execReqs = []
       ∨ out.execReqs =
         [⟨tokenAddress, addressZero,
           B * jsOrNat cfg.sellPercentage 100 / 100⟩]) := by
  unfold sellBranch at hout
  rw [hB] at hout
  simp only at hout
  set req : SwapReq :=
    ⟨tokenAddress, addressZero, B * jsOrNat cfg.sellPercentage 100 / 100⟩
    with hreq
  have hq := quotedSwap_reqs req env.quoteResp env.execEnv st
  rcases ho : (quotedSwap req env.quoteResp env.execEnv st).outcome
      with _ | o
  · rw [ho] at hout
    simp only [Except.ok.injEq] at hout
    rw [← hout]
    exact hq
  · rw [ho] at hout
    by_cases hs : o.success
    · simp only [hs, if_true, Except.ok.injEq] at hout
      rw [← hout]
      simpa using hq
    · simp [hs] at hout
      rw [← hout]
      exact hq

end OkxBot

namespace OkxBot

/-- C2.  With a truthy configured sell percentage `sp`, every amount the
sell branch passes to the quote call and to the execute call is
`floor(B * sp / 100)` of the smallest-unit balance `B`. -/
theorem sell_sizing (cfg : Config) (tokenBalance : Rat) (env : IterEnv)
    (st : BotState) (B sp : Nat) (out : BranchOut)
    (hsp : cfg.sellPercentage = some sp) (hsp0 : sp ≠ 0)
    (hB : parseUnits18 tokenBalance = .ok B)
    (hout : sellBranch cfg tokenBalance env st = .ok out) :
    (∀ r ∈ out.quoteReqs, r.amount = B * sp / 100)
    ∧ (∀ r ∈ out.execReqs, r.amount = B * sp / 100) := by
  obtain ⟨hq, he⟩ := sellBranch_reqs cfg tokenBalance env st B out hB hout
  have hj : jsOrNat cfg.sellPercentage 100 = sp := by
    rw [hsp]
    simp [jsOrNat, hsp0]
  rw [hj] at hq he
  constructor
  · intro r hr
    rw [hq] at hr
    simp at hr
    simp [hr]
  · intro r hr
    rcases he with he | he
    · rw [he] at hr
      simp at hr
    · rw [he] at hr
      simp at hr
      simp [hr]

/-- C2 witness: balance 2 tokens (2·10¹⁸ wei), sell percentage 50: the
quote request carries 10¹⁸ = floor(2·10¹⁸ · 50 / 100). -/
theorem sell_sizing_witness :
    (∀ r ∈ ([⟨tokenAddress, addressZero, 1000000000000000000⟩] :
        List SwapReq), r.amount = 2000000000000000000 * 50 / 100)
    ∧ (∀ r ∈ ([] : List SwapReq),
        r.amount = 2000000000000000000 * 50 / 100) := by
  have hB : parseUnits18 (2 : Rat) = Except.ok 2000000000000000000 := by
    have h := parseUnits18_natCast 2
    norm_num at h
    exact h
  exact sell_sizing ⟨⟨none, none⟩, 1, some 50, none, none⟩ 2
    ⟨Except.error "x", ⟨Except.ok 0, Except.ok 0, Except.ok 0⟩,
     ⟨Except.ok 0, Except.ok 0, Except.ok 0⟩, Except.error "down",
     ⟨Except.error "x", Except.error "x", Except.error "x"⟩⟩
    ⟨true, []⟩ 2000000000000000000 50
    ⟨⟨true, ["Error getting swap quote: down"]⟩, none,
     [⟨tokenAddress, addressZero, 1000000000000000000⟩], [], []⟩
    rfl (by norm_num) hB
    (by simp [sellBranch, hB, quotedSwap, getSwapQuoteM, jsOrNat, log])

/-- C9.  A falsy configured sell percentage (0 or absent) falls back to
100, so the sized sell amount is the full smallest-unit balance, not
zero. -/
theorem sell_sizing_falsy (cfg : Config) (tokenBalance : Rat)
    (env : IterEnv) (st : BotState) (B : Nat) (out : BranchOut)
    (hsp : cfg.sellPercentage = none ∨ cfg.sellPercentage = some 0)
    (hB : parseUnits18 tokenBalance = .ok B)
    (hout : sellBranch cfg tokenBalance env st = .ok out) :
    (∀ r ∈ out.quoteReqs, r.amount = B)
    ∧ (∀ r ∈ out.execReqs, r.amount = B) := by
  obtain ⟨hq, he⟩ := sellBranch_reqs cfg tokenBalance env st B out hB hout
  have hj : jsOrNat cfg.sellPercentage 100 = 100 := by
    rcases hsp with h | h <;> simp [h, jsOrNat]
  have hamt : B * jsOrNat cfg.sellPercentage 100 / 100 = B := by
    rw [hj]
    omega
  rw [hamt] at hq he
  constructor
  · intro r hr
    rw [hq] at hr
    simp at hr
    simp [hr]
  · intro r hr
    rcases he with he | he
    · rw [he] at hr
      simp at hr
    · rw [he] at hr
      simp at hr
      simp [hr]

/-- C9 witness: sell percentage configured as 0, balance 2 tokens: the
quote request carries the full 2·10¹⁸ wei. -/
theorem sell_sizing_falsy_witness :
    (∀ r ∈ ([⟨tokenAddress, addressZero, 2000000000000000000⟩] :
        List SwapReq), r.amount = 2000000000000000000)
    ∧ (∀ r ∈ ([] : List SwapReq), r.amount = 2000000000000000000) := by
  have hB : parseUnits18 (2 : Rat) = Except.ok 2000000000000000000 := by
    have h := parseUnits18_natCast 2
    norm_num at h
    exact h
  exact sell_sizing_falsy ⟨⟨none, none⟩, 1, some 0, none, none⟩ 2
    ⟨Except.error "x", ⟨Except.ok 0, Except.ok 0, Except.ok 0⟩,
     ⟨Except.ok 0, Except.ok 0, Except.ok 0⟩, Except.error "down",
     ⟨Except.error "x", Except.error "x", Except.error "x"⟩⟩
    ⟨true, []⟩ 2000000000000000000
    ⟨⟨true, ["Error getting swap quote: down"]⟩, none,
     [⟨tokenAddress, addressZero, 2000000000000000000⟩], [], []⟩
    (Or.inr rfl) hB
    (by simp [sellBranch, hB, quotedSwap, getSwapQuoteM, jsOrNat, log])

end OkxBot

namespace OkxBot

/-! ## Swap submission gating -/

/-- `executeSwap` submits a transaction only when the swap-build response
arrived, had code `'0'`, and carried a non-empty data array. -/
theorem executeSwapM_submitted (eenv : ExecEnv) (s : BotState)
    (h : (executeSwapM eenv s).2.2 ≠ []) :
    ∃ r ds td, eenv.api = .ok r ∧ r.code = "0" ∧ r.data = some ds
      ∧ ds.head? = some td := by
  rcases ha : eenv.api with e | r
  · simp only [executeSwapM, ha, execFail] at h
    exact absurd rfl h
  · simp only [executeSwapM, ha] at h
    by_cases hc : r.code = "0"
    · simp only [if_pos hc] at h
      rcases hd : r.data with _ | ds
      · simp only [hd, execFail] at h
        exact absurd rfl h
      · simp only [hd] at h
        rcases hh : ds.head? with _ | td
        · simp only [hh, execFail] at h
          exact absurd rfl h
        · exact ⟨r, ds, td, rfl, hc, hd, hh⟩
    · simp only [if_neg hc, execFail] at h
      exact absurd rfl h

/-- A swap-build phase that throws yields the catch block's failure
outcome and no submission. -/
theorem executeSwapM_api_error (eenv : ExecEnv) (s : BotState) (e : String)
    (h : eenv.api = .error e) :
    executeSwapM eenv s =
      (⟨false, none, none, some e⟩,
       log ("Error executing swap: " ++ e) s, []) := by
  simp only [executeSwapM, h, execFail]

/-- A swap-build response with a non-`'0'` code or no data throws
`'Failed to execute swap'`, landing in the catch block: failure outcome,
no submission. -/
theorem executeSwapM_bad_resp (eenv : ExecEnv) (s : BotState)
    (r : ApiResp (List TxData)) (h : eenv.api = .ok r)
    (hbad : r.code ≠ "0" ∨ r.data = none) :
    executeSwapM eenv s =
      (⟨false, none, none, some "Failed to execute swap"⟩,
       log "Error executing swap: Failed to execute swap" s, []) := by
  rcases hbad with hc | hd
  · simp only [executeSwapM, h, if_neg hc, execFail]
    rfl
  · by_cases hc : r.code = "0"
    · simp only [executeSwapM, h, if_pos hc, hd, execFail]
      rfl
    · simp only [executeSwapM, h, if_neg hc, execFail]
      rfl

end OkxBot

namespace OkxBot

/-- When `getSwapQuote` yields null, the branch skips `executeSwap`
entirely: no outcome, no build request, no submission. -/
theorem quotedSwap_quote_none (req : SwapReq)
    (qresp : Except String (ApiResp QuoteData)) (eenv : ExecEnv)
    (s : BotState) (h : (getSwapQuoteM qresp s).1 = none) :
    quotedSwap req qresp eenv s =
      ⟨(getSwapQuoteM qresp s).2, none, [req], [], []⟩ := by
  rcases hq : getSwapQuoteM qresp s with ⟨q, s1⟩
  rw [hq] at h
  simp only at h
  subst h
  simp only [quotedSwap, hq]

/-- When `getSwapQuote` yields a quote, the branch runs `executeSwap` on
the post-quote state and reports its outcome and submissions. -/
theorem quotedSwap_quote_some (req : SwapReq)
    (qresp : Except String (ApiResp QuoteData)) (eenv : ExecEnv)
    (s : BotState) (q : QuoteData)
    (h : (getSwapQuoteM qresp s).1 = some q) :
    quotedSwap req qresp eenv s =
      ⟨(executeSwapM eenv (getSwapQuoteM qresp s).2).2.1,
       some (executeSwapM eenv (getSwapQuoteM qresp s).2).1, [req], [req],
       (executeSwapM eenv (getSwapQuoteM qresp s).2).2.2⟩ := by
  rcases hq : getSwapQuoteM qresp s with ⟨q', s1⟩
  rw [hq] at h
  simp only at h
  subst h
  rcases he : executeSwapM eenv s1 with ⟨o, s2, txs⟩
  simp only [quotedSwap, hq, he]

/-- C3 (amended).  Failure handling of the quote-then-execute protocol:
a failed quote phase skips execution (no submission and no outcome at
all); a swap-build phase that throws, returns a non-`'0'` code, or
returns no data produces a `success = false` outcome carrying the cause,
without submission; and a submission happens only after a successful
quote and a successful swap-build response. -/
theorem swap_submission_gating (req : SwapReq)
    (qresp : Except String (ApiResp QuoteData)) (eenv : ExecEnv)
    (s : BotState) :
    ((getSwapQuoteM qresp s).1 = none →
      (quotedSwap req qresp eenv s).submitted = []
      ∧ (quotedSwap req qresp eenv s).outcome = none)
    ∧ (∀ e, eenv.api = Except.error e →
        (quotedSwap req qresp eenv s).submitted = []
        ∧ ∀ o, (quotedSwap req qresp eenv s).outcome = some o →
            o = ⟨false, none, none, some e⟩)
    ∧ (∀ r, eenv.api = Except.ok r → (r.code ≠ "0" ∨ r.data = none) →
        (quotedSwap req qresp eenv s).submitted = []
        ∧ ∀ o, (quotedSwap req qresp eenv s).outcome = some o →
            o = ⟨false, none, none, some "Failed to execute swap"⟩)
    ∧ ((quotedSwap req qresp eenv s).submitted ≠ [] →
        (∃ q, (getSwapQuoteM qresp s).1 = some q)
        ∧ ∃ r ds td, eenv.api = Except.ok r ∧ r.code = "0"
            ∧ r.data = some ds ∧ ds.head? = some td) := by
  rcases hq1 : (getSwapQuoteM qresp s).1 with _ | q
  · have he := quotedSwap_quote_none req qresp eenv s hq1
    refine ⟨fun _ => by simp [he], fun e hA => by simp [he],
      fun r hA hbad => by simp [he], fun hsub => ?_⟩
    rw [he] at hsub
    simp at hsub
  · have he := quotedSwap_quote_some req qresp eenv s q hq1
    refine ⟨(fun h0 => by cases h0), ?_, ?_, ?_⟩
    · intro e hA
      have hx := executeSwapM_api_error eenv ((getSwapQuoteM qresp s).2) e hA
      rw [he]
      constructor
      · simp [hx]
      · intro o ho
        simp [hx] at ho
        exact ho.symm
    · intro r hA hbad
      have hx := executeSwapM_bad_resp eenv ((getSwapQuoteM qresp s).2) r hA hbad
      rw [he]
      constructor
      · simp [hx]
      · intro o ho
        simp [hx] at ho
        exact ho.symm
    · intro hsub
      rw [he] at hsub
      simp only at hsub
      exact ⟨⟨q, rfl⟩,
        executeSwapM_submitted eenv ((getSwapQuoteM qresp s).2) hsub⟩

/-- C3 witness: with a quote phase that throws, nothing is submitted and
no outcome is produced. -/
theorem swap_submission_gating_witness :
    (quotedSwap ⟨addressZero, tokenAddress, 5⟩ (Except.error "no route")
      ⟨Except.error "x", Except.error "x", Except.error "x"⟩
      ⟨true, []⟩).submitted = []
    ∧ (quotedSwap ⟨addressZero, tokenAddress, 5⟩ (Except.error "no route")
      ⟨Except.error "x", Except.error "x", Except.error "x"⟩
      ⟨true, []⟩).outcome = none :=
  (swap_submission_gating ⟨addressZero, tokenAddress, 5⟩
    (Except.error "no route")
    ⟨Except.error "x", Except.error "x", Except.error "x"⟩
    ⟨true, []⟩).1 (by simp [getSwapQuoteM])

/-- C3 counterexample to the claim as stated: at a concrete quote-phase
failure the operation's result is not an outcome with `success = false`
carrying the cause — there is no outcome at all, because `executeSwap`
is never invoked. -/
theorem quote_failure_no_outcome_cex :
    (quotedSwap ⟨tokenAddress, addressZero, 7⟩ (Except.error "timeout")
      ⟨Except.ok ⟨"0", some [⟨"0xr", "0xd", none, none⟩]⟩, Except.ok "h",
       Except.ok 1⟩ ⟨true, []⟩).submitted = []
    ∧ ¬∃ o, (quotedSwap ⟨tokenAddress, addressZero, 7⟩
      (Except.error "timeout")
      ⟨Except.ok ⟨"0", some [⟨"0xr", "0xd", none, none⟩]⟩, Except.ok "h",
       Except.ok 1⟩ ⟨true, []⟩).outcome = some o := by
  constructor
  · simp [quotedSwap, getSwapQuoteM, log]
  · simp [quotedSwap, getSwapQuoteM, log]

end OkxBot

namespace OkxBot

/-! ## State evolution: the run flag and the log buffer -/

/-- `Evolves s s'`: `s'` is reachable from `s` by loop-internal work —
the run flag is untouched and the log buffer is only appended to. -/
def Evolves (s s' : BotState) : Prop :=
  s'.isRunning = s.isRunning ∧ ∃ t, s'.logs = s.logs ++ t

theorem evolves_refl (s : BotState) : Evolves s s :=
  ⟨rfl, [], by simp⟩

theorem evolves_trans {a b c : BotState} (h1 : Evolves a b)
    (h2 : Evolves b c) : Evolves a c := by
  obtain ⟨hr1, t1, hl1⟩ := h1
  obtain ⟨hr2, t2, hl2⟩ := h2
  exact ⟨hr2.trans hr1, t1 ++ t2, by rw [hl2, hl1, List.append_assoc]⟩

theorem evolves_log (m : String) (s : BotState) : Evolves s (log m s) :=
  ⟨rfl, [m], rfl⟩

theorem getTokenPriceM_evolves (r : Except String (ApiResp PriceData))
    (s : BotState) : Evolves s (getTokenPriceM r s).2 := by
  rcases r with e | r
  · exact evolves_log _ s
  · by_cases hc : r.code = "0"
    · rcases hd : r.data with _ | d
      · simp only [getTokenPriceM, if_pos hc, hd]
        exact evolves_log _ s
      · simp only [getTokenPriceM, if_pos hc, hd]
        exact evolves_refl s
    · simp only [getTokenPriceM, if_neg hc]
      exact evolves_log _ s

theorem getSwapQuoteM_evolves (r : Except String (ApiResp QuoteData))
    (s : BotState) : Evolves s (getSwapQuoteM r s).2 := by
  rcases r with e | r
  · exact evolves_log _ s
  · by_cases hc : r.code = "0"
    · rcases hd : r.data with _ | d
      · simp only [getSwapQuoteM, if_pos hc, hd]
        exact evolves_log _ s
      · simp only [getSwapQuoteM, if_pos hc, hd]
        exact evolves_refl s
    · simp only [getSwapQuoteM, if_neg hc]
      exact evolves_log _ s

theorem getWalletBalanceM_evolves (addr : String) (env : BalEnv)
    (s : BotState) : Evolves s (getWalletBalanceM addr env s).2 := by
  by_cases hc : addr = "ETH" ∨ addr = addressZero
  · rcases hn : env.native with e | b
    · simp only [getWalletBalanceM, if_pos hc, hn]
      exact evolves_log _ s
    · simp only [getWalletBalanceM, if_pos hc, hn]
      exact evolves_refl s
  · rcases hb : env.balanceOf with e | b
    · simp only [getWalletBalanceM, if_neg hc, hb]
      exact evolves_log _ s
    · rcases hd : env.decimals with e | d
      · simp only [getWalletBalanceM, if_neg hc, hb, hd]
        exact evolves_log _ s
      · simp only [getWalletBalanceM, if_neg hc, hb, hd]
        exact evolves_refl s

theorem executeSwapM_evolves (eenv : ExecEnv) (s : BotState) :
    Evolves s (executeSwapM eenv s).2.1 := by
  rcases ha : eenv.api with e | r
  · simp only [executeSwapM, ha, execFail]
    exact evolves_log _ s
  · by_cases hc : r.code = "0"
    · rcases hd : r.data with _ | ds
      · simp only [executeSwapM, ha, if_pos hc, hd, execFail]
        exact evolves_log _ s
      · rcases hh : ds.head? with _ | td
        · simp only [executeSwapM, ha, if_pos hc, hd, hh, execFail]
          exact evolves_log _ s
        · rcases hs : eenv.send with e | hsh
          · simp only [executeSwapM, ha, if_pos hc, hd, hh, hs]
            exact evolves_log _ s
          · rcases hw : eenv.waitConf with e | blk
            · simp only [executeSwapM, ha, if_pos hc, hd, hh, hs, hw]
              exact evolves_trans (evolves_log _ s) (evolves_log _ _)
            · simp only [executeSwapM, ha, if_pos hc, hd, hh, hs, hw]
              exact evolves_trans (evolves_log _ s) (evolves_log _ _)
    · simp only [executeSwapM, ha, if_neg hc, execFail]
      exact evolves_log _ s

theorem quotedSwap_evolves (req : SwapReq)
    (qresp : Except String (ApiResp QuoteData)) (eenv : ExecEnv)
    (s : BotState) : Evolves s (quotedSwap req qresp eenv s).state := by
  rcases hq1 : (getSwapQuoteM qresp s).1 with _ | q
  · rw [quotedSwap_quote_none req qresp eenv s hq1]
    exact getSwapQuoteM_evolves qresp s
  · rw [quotedSwap_quote_some req qresp eenv s q hq1]
    exact evolves_trans (getSwapQuoteM_evolves qresp s)
      (executeSwapM_evolves eenv _)

end OkxBot

namespace OkxBot

theorem buyBranch_evolves (cfg : Config) (env : IterEnv) (s : BotState) :
    (∀ e s1, buyBranch cfg env s = .error (e, s1) → Evolves s s1)
    ∧ (∀ out, buyBranch cfg env s = .ok out → Evolves s out.state) := by
  rcases hp : parseUnits18 cfg.swapAmount with e | amt
  · constructor
    · intro e' s1 h
      simp only [buyBranch, hp, Except.error.injEq, Prod.mk.injEq] at h
      rw [← h.2]
      exact evolves_refl s
    · intro out h
      simp only [buyBranch, hp] at h
      exact Except.noConfusion h
  · constructor
    · intro e' s1 h
      simp only [buyBranch, hp] at h
      rcases ho : (quotedSwap ⟨addressZero, tokenAddress, amt⟩ env.quoteResp
          env.execEnv s).outcome with _ | o
      · rw [ho] at h
        simp at h
      · rw [ho] at h
        by_cases hsx : o.success <;> simp [hsx] at h
    · intro out h
      simp only [buyBranch, hp] at h
      rcases ho : (quotedSwap ⟨addressZero, tokenAddress, amt⟩ env.quoteResp
          env.execEnv s).outcome with _ | o
      · rw [ho] at h
        simp only [Except.ok.injEq] at h
        rw [← h]
        exact quotedSwap_evolves _ _ _ _
      · rw [ho] at h
        by_cases hsx : o.success
        · simp only [hsx, if_true, Except.ok.injEq] at h
          rw [← h]
          exact evolves_trans (quotedSwap_evolves _ _ _ _) (evolves_log _ _)
        · simp [hsx] at h
          rw [← h]
          exact quotedSwap_evolves _ _ _ _

theorem sellBranch_evolves (cfg : Config) (tokenBalance : Rat)
    (env : IterEnv) (s : BotState) :
    (∀ e s1, sellBranch cfg tokenBalance env s = .error (e, s1) →
      Evolves s s1)
    ∧ (∀ out, sellBranch cfg tokenBalance env s = .ok out →
      Evolves s out.state) := by
  rcases hp : parseUnits18 tokenBalance with e | B
  · constructor
    · intro e' s1 h
      simp only [sellBranch, hp, Except.error.injEq, Prod.mk.injEq] at h
      rw [← h.2]
      exact evolves_refl s
    · intro out h
      simp only [sellBranch, hp] at h
      exact Except.noConfusion h
  · constructor
    · intro e' s1 h
      simp only [sellBranch, hp] at h
      rcases ho : (quotedSwap
          ⟨tokenAddress, addressZero, B * jsOrNat cfg.sellPercentage 100 / 100⟩
          env.quoteResp env.execEnv s).outcome with _ | o
      · rw [ho] at h
        simp at h
      · rw [ho] at h
        by_cases hsx : o.success <;> simp [hsx] at h
    · intro out h
      simp only [sellBranch, hp] at h
      rcases ho : (quotedSwap
          ⟨tokenAddress, addressZero, B * jsOrNat cfg.sellPercentage 100 / 100⟩
          env.quoteResp env.execEnv s).outcome with _ | o
      · rw [ho] at h
        simp only [Except.ok.injEq] at h
        rw [← h]
        exact quotedSwap_evolves _ _ _ _
      · rw [ho] at h
        by_cases hsx : o.success
        · simp only [hsx, if_true, Except.ok.injEq] at h
          rw [← h]
          exact evolves_trans (quotedSwap_evolves _ _ _ _) (evolves_log _ _)
        · simp [hsx] at h
          rw [← h]
          exact quotedSwap_evolves _ _ _ _

theorem condStep_evolves (cfg : Config) (env : IterEnv) (c : Intent)
    (s : BotState) :
    (∀ e s1, condStep cfg env c s = .error (e, s1) → Evolves s s1)
    ∧ (∀ out, condStep cfg env c s = .ok out → Evolves s out.state) := by
  rcases h4 : getWalletBalanceM "ETH" env.ethBalEnv s with ⟨ethB, s4⟩
  have hev4 : Evolves s s4 := by
    have h := getWalletBalanceM_evolves "ETH" env.ethBalEnv s
    rw [h4] at h
    exact h
  rcases h5 : getWalletBalanceM tokenAddress env.tokenBalEnv s4 with ⟨tokB, s5⟩
  have hev5 : Evolves s s5 := by
    have h := getWalletBalanceM_evolves tokenAddress env.tokenBalEnv s4
    rw [h5] at h
    exact evolves_trans hev4 h
  have hev6 : Evolves s (log ("ETH Balance: " ++ toString ethB ++
      ", Token Balance: " ++ toString tokB) s5) :=
    evolves_trans hev5 (evolves_log _ _)
  cases hc : c.action
  · constructor
    · intro e s1 h
      simp only [condStep, h4, h5, hc] at h
      exact evolves_trans hev6 ((buyBranch_evolves cfg env _).1 e s1 h)
    · intro out h
      simp only [condStep, h4, h5, hc] at h
      exact evolves_trans hev6 ((buyBranch_evolves cfg env _).2 out h)
  · constructor
    · intro e s1 h
      simp only [condStep, h4, h5, hc] at h
      exact evolves_trans hev6 ((sellBranch_evolves cfg tokB env _).1 e s1 h)
    · intro out h
      simp only [condStep, h4, h5, hc] at h
      exact evolves_trans hev6 ((sellBranch_evolves cfg tokB env _).2 out h)

theorem iterBody_evolves (cfg : Config) (env : IterEnv) (s : BotState) :
    (∀ e s1, iterBody cfg env s = .error (e, s1) → Evolves s s1)
    ∧ (∀ out, iterBody cfg env s = .ok out → Evolves s out.state) := by
  rcases h1 : getTokenPriceM env.priceResp s with ⟨td, s1⟩
  have hev1 : Evolves s s1 := by
    have h := getTokenPriceM_evolves env.priceResp s
    rw [h1] at h
    exact h
  rcases td with _ | d
  · constructor
    · intro e s2 h
      simp only [iterBody, h1] at h
      exact Except.noConfusion h
    · intro out h
      simp only [iterBody, h1, Except.ok.injEq] at h
      rw [← h]
      exact hev1
  · have hev2 : Evolves s
        (log ("Current token price: $" ++ toString d.price) s1) :=
      evolves_trans hev1 (evolves_log _ _)
    rcases hcond : checkPriceConditions cfg.conditions d.price with _ | c
    · constructor
      · intro e s2 h
        simp only [iterBody, h1, hcond] at h
        exact Except.noConfusion h
      · intro out h
        simp only [iterBody, h1, hcond, Except.ok.injEq] at h
        rw [← h]
        exact hev2
    · have hev3 : Evolves s (log ("Condition met: " ++ c.reason ++
          " - Action: " ++ actionName c.action)
          (log ("Current token price: $" ++ toString d.price) s1)) :=
        evolves_trans hev2 (evolves_log _ _)
      constructor
      · intro e s2 h
        simp only [iterBody, h1, hcond] at h
        rcases hcs : condStep cfg env c
            (log ("Condition met: " ++ c.reason ++ " - Action: " ++
              actionName c.action)
              (log ("Current token price: $" ++ toString d.price) s1))
            with e' | bo
        · rw [hcs] at h
          simp only [Except.map, Except.error.injEq] at h
          subst h
          exact evolves_trans hev3 ((condStep_evolves cfg env c _).1 e s2 hcs)
        · rw [hcs] at h
          simp [Except.map] at h
      · intro out h
        simp only [iterBody, h1, hcond] at h
        rcases hcs : condStep cfg env c
            (log ("Condition met: " ++ c.reason ++ " - Action: " ++
              actionName c.action)
              (log ("Current token price: $" ++ toString d.price) s1))
            with e' | bo
        · rw [hcs] at h
          simp [Except.map] at h
        · rw [hcs] at h
          simp only [Except.map, Except.ok.injEq] at h
          rw [← h]
          exact evolves_trans hev3 ((condStep_evolves cfg env c _).2 _ hcs)

theorem loopIter_evolves (cfg : Config) (env : IterEnv) (s : BotState) :
    Evolves s (loopIter cfg env s).1 := by
  rcases hb : iterBody cfg env s with ⟨e, s1⟩ | out
  · simp only [loopIter, hb]
    exact evolves_trans ((iterBody_evolves cfg env s).1 e s1 hb)
      (evolves_log _ _)
  · simp only [loopIter, hb]
    exact (iterBody_evolves cfg env s).2 out hb

end OkxBot

namespace OkxBot

/-- C4.  `start` on an already-running engine is a no-op for the run
flag and launches no second monitoring loop: the guard returns before
`monitorAndSwap` is invoked. -/
theorem start_idempotent (s : BotState) (h : s.isRunning = true) :
    (start s).1.isRunning = true ∧ (start s).2 = false := by
  simp [start, h, log]

/-- C4 witness. -/
theorem start_idempotent_witness :
    (start ⟨true, []⟩).1.isRunning = true ∧ (start ⟨true, []⟩).2 = false :=
  start_idempotent ⟨true, []⟩ rfl

/-- C5 counterexample to the claim as stated: `stop` on a non-running
engine does modify a field — it appends `'Bot is not running'` to the
log buffer. -/
theorem stop_modifies_logs_cex :
    (stop ⟨false, []⟩).isRunning = false
    ∧ stop ⟨false, []⟩ ≠ (⟨false, []⟩ : BotState) := by
  constructor
  · rfl
  · simp [stop, log]

/-- C5 (amended).  `stop` while not running keeps the run flag false and
leaves every field unchanged except the log buffer, to which it appends
exactly the one `'Bot is not running'` line. -/
theorem stop_not_running (s : BotState) (h : s.isRunning = false) :
    (stop s).isRunning = false
    ∧ stop s = { s with logs := s.logs ++ ["Bot is not running"] } := by
  constructor
  · simp [stop, h, log]
  · simp [stop, h, log]

/-- C5 witness. -/
theorem stop_not_running_witness :
    (stop ⟨false, ["a"]⟩).isRunning = false
    ∧ stop ⟨false, ["a"]⟩ = (⟨false, ["a", "Bot is not running"]⟩ : BotState) := by
  have h := stop_not_running ⟨false, ["a"]⟩ rfl
  simpa using h

/-- C6.  Any failure of the underlying ledger query makes the balance
read return zero instead of propagating the exception: a thrown
native-balance lookup in the native branch, and a thrown `balanceOf` or
`decimals` call in the token branch. -/
theorem balance_read_fail_safe (addr : String) (env : BalEnv)
    (s : BotState) (e : String) :
    ((addr = "ETH" ∨ addr = addressZero) → env.native = .error e →
      (getWalletBalanceM addr env s).1 = 0)
    ∧ (¬(addr = "ETH" ∨ addr = addressZero) →
        (env.balanceOf = .error e ∨
         (∃ b, env.balanceOf = .ok b ∧ env.decimals = .error e)) →
        (getWalletBalanceM addr env s).1 = 0) := by
  constructor
  · intro hc hn
    simp [getWalletBalanceM, hc, hn]
  · intro hc hf
    rcases hf with hf | ⟨b, hb, hd⟩
    · simp [getWalletBalanceM, hc, hf]
    · simp [getWalletBalanceM, hc, hb, hd]

/-- C6 witness: a thrown native-balance RPC call yields balance 0. -/
theorem balance_read_fail_safe_witness :
    (getWalletBalanceM "ETH"
      ⟨Except.error "rpc down", Except.ok 5, Except.ok 18⟩
      ⟨true, []⟩).1 = 0 :=
  (balance_read_fail_safe "ETH"
    ⟨Except.error "rpc down", Except.ok 5, Except.ok 18⟩
    ⟨true, []⟩ "rpc down").1 (Or.inl rfl) rfl

end OkxBot

namespace OkxBot

/-- `parseUnits(·, 18)` throws on 1/10¹⁹: the scaled value 1/10 is not a
whole number of wei. -/
theorem parseUnits18_tinyRat :
    parseUnits18 tinyRat = Except.error "invalid decimal value" := by
  have hval : tinyRat = 1 / 10 ^ 19 := by
    unfold tinyRat
    rw [Rat.mk'_eq_divInt, Rat.divInt_eq_div]
    push_cast
    norm_num
  have hten : tenthRat = 1 / 10 := by
    unfold tenthRat
    rw [Rat.mk'_eq_divInt, Rat.divInt_eq_div]
    push_cast
    norm_num
  have hs : tinyRat * ((10 : Rat) ^ 18) = tenthRat := by
    rw [hval, hten]
    norm_num
  unfold parseUnits18
  rw [hs, if_neg]
  intro hc
  exact absurd hc.1 (by decide)

/-- Evaluating the throwing iteration: the body aborts at the buy
branch's `parseEther` with the accumulated log trail. -/
theorem iterBody_envThrow_eval :
    iterBody cfgThrow envThrow ⟨true, []⟩ =
      .error ("invalid decimal value", errState7) := by
  simp [iterBody, cfgThrow, envThrow, benvEthDown, benvTokDown, errState7,
    getTokenPriceM, checkPriceConditions, condStep, getWalletBalanceM,
    buyBranch, parseUnits18_tinyRat, log, actionName, addressZero,
    tokenAddress, Except.map]

end OkxBot

namespace OkxBot

/-- C7.  Failure recovery of the monitoring loop: a body that throws is
caught at the loop boundary, the error is logged, the iteration's sleep
is the fixed 5000 ms recovery delay, and the run flag is untouched; the
loop always proceeds to the next iteration (restarting with the price
fetch) while the flag is set, and exits exactly when the flag is
clear. -/
theorem loop_error_recovery (cfg : Config) (env : IterEnv)
    (envs : List IterEnv) (s s1 : BotState) (e : String) :
    (iterBody cfg env s = .error (e, s1) →
      loopIter cfg env s =
        (log ("Error in monitoring loop: " ++ e) s1, 5000))
    ∧ ((loopIter cfg env s).1.isRunning = s.isRunning)
    ∧ (s.isRunning = true →
      runLoop cfg (env :: envs) s = runLoop cfg envs (loopIter cfg env s).1)
    ∧ (s.isRunning = false → runLoop cfg (env :: envs) s = s) := by
  refine ⟨?_, (loopIter_evolves cfg env s).1, ?_, ?_⟩
  · intro h
    simp [loopIter, h]
  · intro h
    simp [runLoop, h]
  · intro h
    simp [runLoop, h]

/-- C7 witness: at the concrete throwing iteration the catch logs the
error, schedules the 5000 ms recovery sleep, and the running loop takes
the step instead of terminating. -/
theorem loop_error_recovery_witness :
    (loopIter cfgThrow envThrow ⟨true, []⟩ =
      (log ("Error in monitoring loop: " ++ "invalid decimal value")
        errState7, 5000))
    ∧ (runLoop cfgThrow [envThrow] ⟨true, []⟩ =
      runLoop cfgThrow [] (loopIter cfgThrow envThrow ⟨true, []⟩).1)
    ∧ (runLoop cfgThrow [envThrow] ⟨false, ["down"]⟩ =
      (⟨false, ["down"]⟩ : BotState)) := by
  have h1 := loop_error_recovery cfgThrow envThrow [] ⟨true, []⟩ errState7
    "invalid decimal value"
  have h2 := loop_error_recovery cfgThrow envThrow []
    ⟨false, ["down"]⟩ errState7 "invalid decimal value"
  exact ⟨h1.1 iterBody_envThrow_eval, h1.2.2.1 rfl, h2.2.2.2 rfl⟩

/-- C10.  The log buffer is append-only: `start`, `stop` and every loop
pass only append to `logs`; over any sequence of operations the length
never decreases; and `getStatus` reports exactly the buffer length
without modifying anything, so its `logsCount` is non-decreasing. -/
theorem logs_append_only :
    (∀ op s, ∃ t, (applyOp op s).logs = s.logs ++ t)
    ∧ (∀ ops s, s.logs.length ≤
        (List.foldl (fun st op => applyOp op st) s ops).logs.length)
    ∧ (∀ w s, (getStatus w s).logsCount = s.logs.length)
    ∧ (∀ w op s, (getStatus w s).logsCount ≤
        (getStatus w (applyOp op s)).logsCount) := by
  have hop : ∀ op s, ∃ t, (applyOp op s).logs = s.logs ++ t := by
    intro op s
    cases op with
    | opStart =>
      by_cases h : s.isRunning
      · exact ⟨["Bot is already running"], by simp [applyOp, start, h, log]⟩
      · exact ⟨["Starting OKX Auto Swap Bot..."],
          by simp [applyOp, start, h, log]⟩
    | opStop =>
      by_cases h : s.isRunning
      · exact ⟨["Stopping OKX Auto Swap Bot..."],
          by simp [applyOp, stop, h, log]⟩
      · exact ⟨["Bot is not running"], by simp [applyOp, stop, h, log]⟩
    | opIter cfg env =>
      obtain ⟨-, t, ht⟩ := loopIter_evolves cfg env s
      exact ⟨t, ht⟩
  have hlen : ∀ op s, s.logs.length ≤ (applyOp op s).logs.length := by
    intro op s
    obtain ⟨t, ht⟩ := hop op s
    rw [ht]
    simp
  refine ⟨hop, ?_, fun w s => rfl,
    fun w op s => by simpa [getStatus] using hlen op s⟩
  intro ops
  induction ops with
  | nil =>
    intro s
    simp
  | cons op ops ih =>
    intro s
    rw [List.foldl_cons]
    exact le_trans (hlen op s) (ih (applyOp op s))

end OkxBot
